import Mathlib

/-!
Verification of the Assmat Pro backend (src/main.py, src/schemas.py).

The request handlers, schemas and calculators are embedded from the source.
The storage gateway (the `database` module: `db`, `create_document`,
`get_documents`) is not part of the source tree; its two primitives are
modelled from the specification (exact-match filters, limit cap, insertion
order, append-on-create).  Python floats are modelled as rationals; Python
`round(x, 2)` is modelled as round-half-to-even at two decimal places.
-/

namespace AssmatPro

/-- Python `x or d` on an optional string: `None` and `""` are falsy and give `d`. -/
def pyOr (x : Option String) (d : String) : String :=
  match x with
  | none => d
  | some s => if s = "" then d else s

/-- Round a rational to the nearest integer, ties to even (Python's round tie rule). -/
def rhe (q : ℚ) : ℤ :=
  if q - Int.floor q < 1/2 then Int.floor q
  else if 1/2 < q - Int.floor q then Int.floor q + 1
  else if Int.floor q % 2 = 0 then Int.floor q else Int.floor q + 1

/-- Python `round(x, 2)` modelled on rationals. -/
def round2 (q : ℚ) : ℚ := ((rhe (q * 100) : ℤ) : ℚ) / 100

/-- A calendar date as used by the code (datetime.date). -/
structure PyDate where
  year : Nat
  month : Nat
  day : Nat
deriving DecidableEq

/-- Zero-padding to two digits, as strftime does for %d and %m. -/
def pad2 (n : Nat) : String := if n < 10 then "0" ++ toString n else toString n

/-- strftime with format %d/%m/%Y. -/
def PyDate.format (d : PyDate) : String :=
  pad2 d.day ++ "/" ++ pad2 d.month ++ "/" ++ toString d.year

/-- schemas.Contract: field shapes (floats as rationals); the ge-constraints are
checked by Contract.validate below. -/
structure Contract where
  parent_email : String
  assistant_email : String
  child_name : String
  start_date : PyDate
  hours_per_week : ℚ
  hourly_rate : ℚ
  paid_vacation_days : ℤ := 25
  notes : Option String := none
deriving DecidableEq

/-- The pydantic numeric lower bounds on schemas.Contract (Field ge=0 on
hours_per_week, hourly_rate, paid_vacation_days).  Email-format validation is
performed by the external EmailStr validator and is out of the model's scope. -/
def Contract.validate (c : Contract) : Bool :=
  decide (0 ≤ c.hours_per_week) && decide (0 ≤ c.hourly_rate) &&
    decide (0 ≤ c.paid_vacation_days)

/-- schemas.Announcement (author_role is stored as text in the document). -/
structure Announcement where
  title : String
  description : String
  author_email : String
  author_role : String
  city : Option String := none
  availability : Option String := none
deriving DecidableEq

/-- Modelled from the spec: the Storage Gateway's find-documents primitive
(`get_documents` of the missing `database` module): zero or more exact-match
field constraints, at most `limit` documents, insertion order preserved.
Documents are viewed through a per-collection `getField` accessor. -/
def get_documents {α : Type} (getField : α → String → Option String)
    (docs : List α) (query : List (String × String)) (limit : Nat) : List α :=
  (docs.filter (fun d => query.all (fun kv => getField d kv.1 == some kv.2))).take limit

/-- Modelled from the spec: the Storage Gateway's insert-one-document primitive
(`create_document` of the missing `database` module) appends one document. -/
def create_document {α : Type} (docs : List α) (d : α) : List α := docs ++ [d]

/-- String-valued field view of a stored contract document (the fields the
handlers query by). -/
def Contract.getField (c : Contract) : String → Option String
  | "parent_email" => some c.parent_email
  | "assistant_email" => some c.assistant_email
  | "child_name" => some c.child_name
  | _ => none

/-- String-valued field view of a stored announcement document. -/
def Announcement.getField (a : Announcement) : String → Option String
  | "title" => some a.title
  | "description" => some a.description
  | "author_email" => some a.author_email
  | "author_role" => some a.author_role
  | "city" => a.city
  | "availability" => a.availability
  | _ => none

/-- main.list_contracts: query field is parent_email exactly when role = "parent",
assistant_email otherwise; exact-match query on the contract collection, limit 100. -/
def list_contracts (docs : List Contract) (email : String) (role : String) :
    List Contract :=
  let field := if role = "parent" then "parent_email" else "assistant_email"
  get_documents Contract.getField docs [(field, email)] 100

/-- main.list_announcements: a city / author_role exact-match constraint is added
only when the corresponding query parameter is truthy (present and non-empty);
default limit 50. -/
def list_announcements (docs : List Announcement) (city : Option String)
    (role : Option String) (limit : Nat := 50) : List Announcement :=
  let cityQ := match city with
    | none => []
    | some s => if s = "" then [] else [("city", s)]
  let roleQ := match role with
    | none => []
    | some s => if s = "" then [] else [("author_role", s)]
  get_documents Announcement.getField docs (cityQ ++ roleQ) limit

/-- main.create_contract together with the schema-validation layer that runs
before the handler body: an invalid payload is a client fault and no storage
call happens; a valid one is inserted into the contract collection. -/
def create_contract (docs : List Contract) (payload : Contract) :
    List Contract × Except String Unit :=
  if payload.validate then (create_document docs payload, Except.ok ())
  else (docs, Except.error "client fault: schema validation")

/-- main.AuthCallback request model (role is plain optional text, no enum). -/
structure AuthCallback where
  provider : String
  email : String
  name : Option String := none
  avatar_url : Option String := none
  role : Option String := none
deriving DecidableEq

/-- The User document shape stored by main.auth_callback. -/
structure StoredUser where
  name : String
  email : String
  role : String
  avatar_url : Option String
  provider : String
  is_active : Bool
deriving DecidableEq

/-- The user dict built by main.auth_callback (Python `or` defaulting for
name and role). -/
def mkUser (p : AuthCallback) : StoredUser :=
  { name := pyOr p.name "Utilisateur"
    email := p.email
    role := pyOr p.role "parent"
    avatar_url := p.avatar_url
    provider := p.provider
    is_active := true }

/-- main.auth_callback: find_one on the user collection by email (modelled from
the spec as existence of a matching document); create only when absent; respond
ok with the email either way. -/
def auth_callback (docs : List StoredUser) (p : AuthCallback) :
    List StoredUser × (Bool × String) :=
  if docs.any (fun u => u.email == p.email) then (docs, (true, p.email))
  else (create_document docs (mkUser p), (true, p.email))

/-- Number of stored user documents with the given email. -/
def countEmail (docs : List StoredUser) (e : String) : Nat :=
  (docs.filter (fun u => u.email == e)).length

/-- schemas.SalaryCalc. -/
structure SalaryCalc where
  hours : ℚ
  rate : ℚ

/-- schemas.LeaveCalc. -/
structure LeaveCalc where
  accrued_days : ℚ
  days_taken : ℚ

/-- main.calc_salary: gross = hours * rate rounded to 2 decimal places. -/
def calc_salary (d : SalaryCalc) : ℚ := round2 (d.hours * d.rate)

/-- main.calc_leave: remaining = accrued_days - days_taken rounded to 2 decimal
places, unclamped. -/
def calc_leave (d : LeaveCalc) : ℚ := round2 (d.accrued_days - d.days_taken)

/-- The eight text lines drawn by main.contract_pdf below the title, in drawing
order; numeric fields are rendered via toString. -/
def contract_pdf_lines (c : Contract) : List String :=
  [ "Parent employeur: " ++ c.parent_email
  , "Assistante maternelle: " ++ c.assistant_email
  , "Enfant: " ++ c.child_name
  , "Date de début: " ++ c.start_date.format
  , "Heures hebdomadaires: " ++ toString c.hours_per_week
  , "Taux horaire: " ++ toString c.hourly_rate ++ " €"
  , "Jours de congés payés: " ++ toString c.paid_vacation_days
  , "Notes: " ++ pyOr c.notes "-" ]

/-! Sample documents used to instantiate the theorems below on concrete inputs. -/

/-- A sample stored contract. -/
def cSample : Contract :=
  { parent_email := "parent@ex.fr", assistant_email := "assistant@ex.fr",
    child_name := "Léo", start_date := ⟨2024, 9, 2⟩,
    hours_per_week := 35, hourly_rate := 4, paid_vacation_days := 25, notes := none }

/-- A sample announcement. -/
def aSample : Announcement :=
  { title := "Garde", description := "Recherche assistante maternelle",
    author_email := "p@ex.fr", author_role := "parent",
    city := some "Lyon", availability := none }

/-! Helper lemmas. -/

/-- A single-constraint query filters on that one field. -/
theorem get_documents_single {α : Type} (gf : α → String → Option String)
    (docs : List α) (k v : String) (lim : Nat) :
    get_documents gf docs [(k, v)] lim
      = (docs.filter (fun d => gf d k == some v)).take lim := by
  simp only [get_documents, List.all_cons, List.all_nil, Bool.and_true]

/-- Rounding half-to-even of a rational strictly below -1/2 is negative. -/
theorem rhe_neg (q : ℚ) (h : q < -(1/2)) : rhe q < 0 := by
  have hf0 : Int.floor q < 0 := by
    rw [Int.floor_lt]
    push_cast
    linarith
  unfold rhe
  split_ifs with h1 h2 h3
  · exact hf0
  · have hc : (Int.floor q : ℚ) < -1 := by linarith
    have : Int.floor q < -1 := by exact_mod_cast hc
    omega
  · exact hf0
  · have he : q - Int.floor q = 1/2 := le_antisymm (not_lt.mp h2) (not_lt.mp h1)
    have hc : (Int.floor q : ℚ) < -1 := by linarith
    have : Int.floor q < -1 := by exact_mod_cast hc
    omega

/-- rhe is the identity on integers. -/
theorem rhe_intCast (n : ℤ) : rhe ((n : ℤ) : ℚ) = n := by
  unfold rhe
  rw [Int.floor_intCast]
  norm_num

/-- round2 of a rational strictly below -1/200 is negative. -/
theorem round2_neg (q : ℚ) (h : q < -(1/200)) : round2 q < 0 := by
  have h2 : q * 100 < -(1/2) := by linarith
  have h3 := rhe_neg (q * 100) h2
  have h4 : ((rhe (q * 100) : ℤ) : ℚ) < 0 := by exact_mod_cast h3
  exact div_neg_of_neg_of_pos h4 (by norm_num)

/-! Claim theorems. -/

/-- C6: the salary calculator returns gross = hours * rate rounded to 2 decimal
places; swapping the two inputs yields the same gross; hours=10, rate=15 gives
gross=150. -/
theorem calc_salary_spec (h r : ℚ) :
    calc_salary ⟨h, r⟩ = round2 (h * r)
    ∧ calc_salary ⟨h, r⟩ = calc_salary ⟨r, h⟩
    ∧ calc_salary ⟨10, 15⟩ = 150 := by
  refine ⟨rfl, ?_, ?_⟩
  · simp only [calc_salary]
    rw [mul_comm]
  · show round2 ((10 : ℚ) * 15) = 150
    unfold round2
    rw [show ((10 : ℚ) * 15) * 100 = ((15000 : ℤ) : ℚ) by norm_num, rhe_intCast]
    norm_num

/-- C7 counterexample: with accrued=5 and taken=5.001 the days taken exceed the
days accrued, yet the leave calculator returns 0, which is not negative. -/
theorem calc_leave_small_excess_not_negative :
    (5 : ℚ) < 5 + 1/1000
    ∧ calc_leave ⟨5, 5 + 1/1000⟩ = 0
    ∧ ¬calc_leave ⟨5, 5 + 1/1000⟩ < 0 := by
  have heval : calc_leave ⟨5, 5 + 1/1000⟩ = 0 := by
    show round2 ((5 : ℚ) - (5 + 1/1000)) = 0
    unfold round2
    rw [show ((5 : ℚ) - (5 + 1/1000)) * 100 = -1/10 by norm_num]
    have hf : Int.floor ((-1/10 : ℚ)) = -1 := by
      rw [Int.floor_eq_iff]
      norm_num
    unfold rhe
    rw [hf]
    norm_num
  exact ⟨by norm_num, heval, by rw [heval]; norm_num⟩

/-- C7 (amended): the leave calculator returns remaining = accrued - taken
rounded to 2 decimal places with no clamping; the result is negative whenever
taken exceeds accrued by more than 1/200 (half of the last rounded decimal);
accrued=5, taken=8 gives remaining=-3. -/
theorem calc_leave_spec (a t : ℚ) :
    calc_leave ⟨a, t⟩ = round2 (a - t)
    ∧ (1/200 < t - a → calc_leave ⟨a, t⟩ < 0)
    ∧ calc_leave ⟨5, 8⟩ = -3 := by
  refine ⟨rfl, ?_, ?_⟩
  · intro h
    exact round2_neg (a - t) (by linarith)
  · show round2 ((5 : ℚ) - 8) = -3
    unfold round2
    rw [show ((5 : ℚ) - 8) * 100 = ((-300 : ℤ) : ℚ) by norm_num, rhe_intCast]
    norm_num

/-- Witness for C7: instantiated at accrued=5, taken=8. -/
theorem calc_leave_spec_witness : (1/200 : ℚ) < 8 - 5 ∧ calc_leave ⟨5, 8⟩ < 0 :=
  ⟨by norm_num, (calc_leave_spec 5 8).2.1 (by norm_num)⟩

/-- C9: list_contracts performs no enum validation of role: any role value other
than "parent" (e.g. "admin" or "") yields the assistant_email query, not a fault. -/
theorem list_contracts_any_role (docs : List Contract) (E role : String)
    (h : role ≠ "parent") :
    list_contracts docs E role
      = (docs.filter (fun c => c.assistant_email == E)).take 100 := by
  simp only [list_contracts, if_neg h, get_documents_single]
  congr 1

/-- Witness for C9: instantiated at role="admin". -/
theorem list_contracts_any_role_witness :
    list_contracts [cSample] "assistant@ex.fr" "admin"
      = (([cSample]).filter (fun c => c.assistant_email == "assistant@ex.fr")).take 100 :=
  list_contracts_any_role [cSample] "assistant@ex.fr" "admin" (by decide)

/-- C10: in list_announcements an empty-string city or role query parameter adds
no filter constraint, exactly like an absent parameter. -/
theorem list_announcements_empty_param (docs : List Announcement)
    (city role : Option String) (limit : Nat) :
    list_announcements docs (some "") role limit = list_announcements docs none role limit
    ∧ list_announcements docs city (some "") limit
        = list_announcements docs city none limit :=
  ⟨rfl, rfl⟩

/-- C1: list_contracts with role "parent" queries the contract collection with
the single exact-match constraint parent_email = E at limit 100, any other role
with assistant_email = E; every contract returned in the parent case has
parent_email = E, so none is included on an assistant_email match alone. -/
theorem list_contracts_parent_filter (docs : List Contract) (E : String) :
    list_contracts docs E "parent"
      = (docs.filter (fun c => c.parent_email == E)).take 100
    ∧ (∀ r, r ≠ "parent" →
        list_contracts docs E r
          = (docs.filter (fun c => c.assistant_email == E)).take 100)
    ∧ ∀ c, c ∈ list_contracts docs E "parent" → c.parent_email = E := by
  have hparent : list_contracts docs E "parent"
      = (docs.filter (fun c => c.parent_email == E)).take 100 := by
    have h0 : list_contracts docs E "parent"
        = get_documents Contract.getField docs [("parent_email", E)] 100 := rfl
    rw [h0, get_documents_single]
    congr 1
  refine ⟨hparent, ?_, ?_⟩
  · intro r hr
    simp only [list_contracts, if_neg hr, get_documents_single]
    congr 1
  · intro c hc
    rw [hparent] at hc
    have hmem := List.take_subset 100 _ hc
    have hp := (List.mem_filter.mp hmem).2
    exact eq_of_beq hp

/-- Witness for C1: instantiated on a one-contract store, for a non-parent role
and for a member of the parent-role result. -/
theorem list_contracts_parent_filter_witness :
    list_contracts [cSample] "assistant@ex.fr" "assistant"
      = (([cSample]).filter (fun c => c.assistant_email == "assistant@ex.fr")).take 100
    ∧ cSample.parent_email = "parent@ex.fr" :=
  ⟨(list_contracts_parent_filter [cSample] "assistant@ex.fr").2.1 "assistant" (by decide),
   (list_contracts_parent_filter [cSample] "parent@ex.fr").2.2 cSample (by decide)⟩

/-- C2: listing announcements with no explicit limit uses limit 50, so at most
50 documents come back; with 60 stored announcements and no filters, exactly 50. -/
theorem list_announcements_default_limit (docs : List Announcement) :
    (list_announcements docs none none).length ≤ 50
    ∧ (docs.length = 60 → (list_announcements docs none none).length = 50) := by
  have key : list_announcements docs none none = docs.take 50 := by
    simp only [list_announcements, get_documents, List.nil_append, List.all_nil]
    rw [List.filter_true]
  constructor
  · rw [key]
    exact List.length_take_le 50 docs
  · intro h
    rw [key, List.length_take, h]
    decide

/-- Witness for C2: 60 concrete stored announcements, default-limit listing
returns exactly 50. -/
theorem list_announcements_default_limit_witness :
    (list_announcements (List.replicate 60 aSample) none none).length = 50 :=
  (list_announcements_default_limit (List.replicate 60 aSample)).2 (by simp)

/-- A sample stored user and a matching auth-callback payload. -/
def uSample : StoredUser :=
  { name := "Ana", email := "ana@ex.fr", role := "assistant",
    avatar_url := none, provider := "google", is_active := true }

/-- Auth-callback payload whose email matches uSample. -/
def pSample : AuthCallback :=
  { provider := "google", email := "ana@ex.fr", name := some "Ana",
    avatar_url := none, role := some "assistant" }

/-- C3: when a user with the payload's email already exists, auth_callback
inserts nothing and answers ok with the email; running it twice in sequence
leaves max(initial count, 1) documents with that email — so at most one when
none or one was there before. -/
theorem auth_callback_idempotent (docs : List StoredUser) (p : AuthCallback) :
    (docs.any (fun u => u.email == p.email) = true →
      auth_callback docs p = (docs, (true, p.email)))
    ∧ countEmail (auth_callback (auth_callback docs p).1 p).1 p.email
        = max (countEmail docs p.email) 1 := by
  constructor
  · intro h
    simp [auth_callback, h]
  · by_cases h : docs.any (fun u => u.email == p.email) = true
    · simp only [auth_callback, h, if_true]
      have h1 : 1 ≤ countEmail docs p.email := by
        obtain ⟨u, hu, hue⟩ := List.any_eq_true.mp h
        have hm : u ∈ docs.filter (fun u => u.email == p.email) :=
          List.mem_filter.mpr ⟨hu, hue⟩
        have := List.length_pos.mpr (List.ne_nil_of_mem hm)
        unfold countEmail
        omega
      exact (max_eq_left h1).symm
    · have h' : docs.any (fun u => u.email == p.email) = false := by
        simpa using h
      have hcount0 : countEmail docs p.email = 0 := by
        unfold countEmail
        rw [List.length_eq_zero, List.filter_eq_nil_iff]
        intro u hu hb
        exact h (List.any_eq_true.mpr ⟨u, hu, hb⟩)
      have hs1 : (auth_callback docs p).1 = docs ++ [mkUser p] := by
        simp [auth_callback, h', create_document]
      have hany : (docs ++ [mkUser p]).any (fun u => u.email == p.email) = true := by
        rw [List.any_eq_true]
        exact ⟨mkUser p, by simp, by simp [mkUser]⟩
      rw [hs1]
      have hs2 : auth_callback (docs ++ [mkUser p]) p
          = (docs ++ [mkUser p], (true, p.email)) := by
        simp [auth_callback, hany]
      rw [hs2]
      unfold countEmail at hcount0 ⊢
      rw [List.filter_append, List.length_append, hcount0]
      simp [mkUser]

/-- Witness for C3: with uSample already stored, the matching callback pSample
changes nothing and answers ok. -/
theorem auth_callback_idempotent_witness :
    auth_callback [uSample] pSample = ([uSample], (true, "ana@ex.fr")) :=
  (auth_callback_idempotent [uSample] pSample).1 (by decide)

/-- A contract payload with hourly_rate = -1 (otherwise well-formed). -/
def cNeg : Contract :=
  { parent_email := "p@ex.fr", assistant_email := "a@ex.fr", child_name := "Zoé",
    start_date := ⟨2024, 1, 8⟩, hours_per_week := 30, hourly_rate := -1,
    paid_vacation_days := 25, notes := none }

/-- C4: a contract payload with any negative hours_per_week, hourly_rate or
paid_vacation_days fails schema validation as a client fault and the contract
collection is left unchanged. -/
theorem create_contract_rejects_negative (docs : List Contract) (payload : Contract)
    (h : payload.hourly_rate < 0 ∨ payload.hours_per_week < 0
        ∨ payload.paid_vacation_days < 0) :
    (create_contract docs payload).1 = docs
    ∧ (create_contract docs payload).2
        = Except.error "client fault: schema validation" := by
  have hv : payload.validate = false := by
    rcases h with h | h | h
    · simp [Contract.validate, decide_eq_false (not_le.mpr h)]
    · simp [Contract.validate, decide_eq_false (not_le.mpr h)]
    · simp [Contract.validate, decide_eq_false (not_le.mpr h)]
  simp [create_contract, hv]

/-- Witness for C4: the payload cNeg with hourly_rate = -1 is rejected with no
insertion. -/
theorem create_contract_rejects_negative_witness :
    (create_contract [] cNeg).1 = []
    ∧ (create_contract [] cNeg).2 = Except.error "client fault: schema validation" :=
  create_contract_rejects_negative [] cNeg (Or.inl (by norm_num [cNeg]))

/-- An auth-callback payload carrying role "admin", outside the role enum. -/
def pAdmin : AuthCallback :=
  { provider := "google", email := "root@ex.fr", name := none,
    avatar_url := none, role := some "admin" }

/-- C5 counterexample: the auth callback inserts a user document whose role is
"admin", which is neither "parent" nor "assistant" — the role enum is not an
invariant of the user collection. -/
theorem auth_callback_role_not_enum :
    ((auth_callback [] pAdmin).1.map (fun u => u.role)) = ["admin"]
    ∧ ¬("admin" = "parent" ∨ "admin" = "assistant") := by
  constructor
  · rfl
  · decide

/-- An auth-callback payload with no role given. -/
def pNoRole : AuthCallback :=
  { provider := "apple", email := "n@ex.fr", name := none,
    avatar_url := none, role := none }

/-- C5 (amended): a user document created by the auth callback carries the
provided role string verbatim whenever it is present and non-empty (even outside
the enum), and the default "parent" — inside the enum — exactly when the role
input is absent (or empty). -/
theorem auth_callback_role_default (docs : List StoredUser) (p : AuthCallback)
    (u : StoredUser) (hu : u ∈ (auth_callback docs p).1) :
    u ∈ docs ∨ (u.role = pyOr p.role "parent"
        ∧ (p.role = none → u.role = "parent")) := by
  unfold auth_callback create_document at hu
  split at hu
  · exact Or.inl hu
  · rcases List.mem_append.mp hu with h1 | h1
    · exact Or.inl h1
    · have he : u = mkUser p := List.mem_singleton.mp h1
      subst he
      refine Or.inr ⟨rfl, ?_⟩
      intro hr
      simp [mkUser, pyOr, hr]

/-- Witness for C5: a role-less payload on an empty store creates a user with
role "parent". -/
theorem auth_callback_role_default_witness :
    mkUser pNoRole ∈ ([] : List StoredUser)
    ∨ ((mkUser pNoRole).role = pyOr pNoRole.role "parent"
        ∧ (pNoRole.role = none → (mkUser pNoRole).role = "parent")) :=
  auth_callback_role_default [] pNoRole (mkUser pNoRole) (by decide)

/-- C8: when the submitted contract has no notes, the notes line of the PDF (the
eighth drawn line) is exactly "Notes: -": the dash placeholder, not "None" and
not an empty value after the label. -/
theorem contract_pdf_notes_placeholder (c : Contract) (h : c.notes = none) :
    (contract_pdf_lines c).get? 7 = some "Notes: -"
    ∧ (contract_pdf_lines c).get? 7 ≠ some "Notes: None"
    ∧ (contract_pdf_lines c).get? 7 ≠ some "Notes: " := by
  have key : (contract_pdf_lines c).get? 7
      = some ("Notes: " ++ pyOr c.notes "-") := rfl
  rw [key, h]
  refine ⟨by decide, by decide, by decide⟩

/-- Witness for C8: instantiated at the note-less contract cSample. -/
theorem contract_pdf_notes_placeholder_witness :
    (contract_pdf_lines cSample).get? 7 = some "Notes: -"
    ∧ (contract_pdf_lines cSample).get? 7 ≠ some "Notes: None"
    ∧ (contract_pdf_lines cSample).get? 7 ≠ some "Notes: " :=
  contract_pdf_notes_placeholder cSample (by decide)

end AssmatPro
